import Mathlib

/-!
Shallow embedding of the OllamaTea repository (NimbleMarkets/ollamatea) for
checking its natural-language specification.

Conventions of the embedding:
* Go `int64` identifiers become `Int`; timestamps (`time.Time`) become `Nat`
  ticks; byte slices become `List Nat`.
* `context.Context` / `context.CancelFunc` pairs are modelled by a token:
  `cancelTok = some t` means the session's `cancelFunc` field is non-nil and
  refers to the cancellable context with token `t`; `hasCtx` mirrors whether
  the `ctx` field is non-nil.  Invoking `cancelFunc()` is reported as a
  `cancelSignal` carrying the token, so that a surrounding system model can
  account for which in-flight call (if any) the cancellation hits.
* The external Ollama client and the BubbleTea runtime are out of scope of the
  repository; their behaviour enters as explicit parameters (server response
  chunks, transport errors) or as message queues in the system model below.
* `tea.Cmd` values returned by `Update` are reified as constructors; a value
  returned by `startGenerating` is a `TeaValue`, distinguishing a plain
  message from a command value returned in message position
  (`Cmdize(...)` returned as a `tea.Msg`, as the Go source does).
-/

/-- Default Ollama host, from the configuration defaults
(`defaultOllamaHost`); the environment-variable override is modelled as
absent. -/
def DefaultHost : String := "http://localhost:11434"

/-- Default Ollama model (`defaultOllamaModel`). -/
def DefaultModel : String := "llama3.2-vision:11b"

/-- Default prompt (`defaultOllamaPrompt`). -/
def DefaultPrompt : String := ""

/-- Default system prompt (`defaultOllamaSystem`). -/
def DefaultSystemPrompt : String := ""

/-- Go struct `generateResponseMsg` (ollamatea_session.go): the private
message dispatched repeatedly by `waitForResponse`. -/
structure generateResponseMsg where
  ID : Int
  CreatedAt : Nat
  Response : String
  Done : Bool
  DoneReason : String
  Context : List Int
deriving DecidableEq, Repr

/-- Go struct `GenerateResponseMsg`: the public incremental-response
message. -/
structure GenerateResponseMsg where
  ID : Int
  CreatedAt : Nat
  Response : String
deriving DecidableEq, Repr

/-- Go struct `GenerateDoneMsg`: the public terminal message of a
generation. -/
structure GenerateDoneMsg where
  ID : Int
  Response : String
  CreatedAt : Nat
  DoneReason : String
  Context : List Int
deriving DecidableEq, Repr

/-- Go struct `Session` (ollamatea_session.go).  Public request fields are
kept verbatim; the private `ctx`/`cancelFunc`/`id`/`lastError`/
`isGenerating`/`response` fields are modelled as described in the header.
The response channel `respCh` lives in the system model, not here. -/
structure Session where
  Host : String
  Model : String
  System : String
  Template : String
  Context : List Int
  Prompt : String
  Suffix : String
  Images : List (List Nat)
  Options : List (String × String)
  hasCtx : Bool
  cancelTok : Option Nat
  id : Int
  lastError : Option String
  isGenerating : Bool
  response : String
deriving DecidableEq, Repr

/-- Go `NewSession` with the given fresh id (the global atomic counter
`nextSessionID` is modelled by passing the id explicitly). -/
def NewSession (id : Int) : Session :=
  { Host := DefaultHost
    Model := DefaultModel
    System := DefaultSystemPrompt
    Template := ""
    Context := []
    Prompt := DefaultPrompt
    Suffix := ""
    Images := []
    Options := []
    hasCtx := false
    cancelTok := none
    id := id
    lastError := none
    isGenerating := false
    response := "" }

/-- Messages handled by `Session.Update`: `StartGenerateMsg`,
`StopGenerateMsg` and the private `generateResponseMsg`. -/
inductive GenMsg where
  | start (ID : Int)
  | stop (ID : Int)
  | chunk (m : generateResponseMsg)
deriving DecidableEq, Repr

/-- Messages re-emitted by `Session.Update` via `Cmdize`. -/
inductive GenEmit where
  | resp (m : GenerateResponseMsg)
  | done (m : GenerateDoneMsg)
deriving DecidableEq, Repr

/-- Commands returned by `Session.Update`: `startGeneratingCmd`,
`Cmdize` of an emitted message, and `waitForResponse`. -/
inductive GenCmd where
  | startGen
  | emit (e : GenEmit)
  | wait
deriving DecidableEq, Repr

/-- Result of one `Session.Update` call: the new session value, the list of
commands returned (a `tea.Batch`/`tea.Sequence` flattened in order), and
`cancelSignal = some t` exactly when the code invoked `cancelFunc()` on the
context with token `t`. -/
structure GenUpd where
  state : Session
  cmds : List GenCmd
  cancelSignal : Option Nat
deriving DecidableEq, Repr

/-- Go `Session.Update` (ollamatea_session.go lines 159-224), translated
case by case. -/
def Session.update (m : Session) : GenMsg → GenUpd
  | .start i =>
    if i ≠ m.id then ⟨m, [], none⟩
    else if m.isGenerating then
      ⟨{ m with cancelTok := none, hasCtx := false, isGenerating := false },
        [.startGen], m.cancelTok⟩
    else ⟨m, [.startGen], none⟩
  | .stop i =>
    if i ≠ m.id then ⟨m, [], none⟩
    else
      ⟨{ m with cancelTok := none, hasCtx := false, isGenerating := false },
        [], m.cancelTok⟩
  | .chunk c =>
    if c.ID ≠ m.id then ⟨m, [], none⟩
    else
      let m1 := { m with response := m.response ++ c.Response }
      let respMsg : GenerateResponseMsg :=
        { ID := m.id, CreatedAt := c.CreatedAt, Response := c.Response }
      if !c.Done then ⟨m1, [.emit (.resp respMsg), .wait], none⟩
      else
        let doneMsg : GenerateDoneMsg :=
          { ID := m.id, Response := m1.response, CreatedAt := c.CreatedAt,
            DoneReason := c.DoneReason, Context := c.Context }
        ⟨{ m1 with isGenerating := false },
          [.emit (.resp respMsg), .emit (.done doneMsg), .wait], none⟩

/-- Response chunk produced by the external Ollama server
(`ollama.GenerateResponse`, fields used by `respFunc`). -/
structure OllamaGenerateResponse where
  CreatedAt : Nat
  Response : String
  Done : Bool
  DoneReason : String
  Context : List Int
deriving DecidableEq, Repr

/-- Outcome of the external part of `startGenerating`: either the host URL
fails to parse, or the transport call runs, pushing `chunks` through
`respFunc` and returning `err` (`none` for success). -/
inductive GenOutcome where
  | parseFail (e : String)
  | transport (chunks : List OllamaGenerateResponse) (err : Option String)
deriving DecidableEq, Repr

/-- Value returned by `startGenerating` in `tea.Msg` position: either `nil`,
or `Cmdize(msg)` — that is, a `tea.Cmd` value returned as a `tea.Msg`
(the Go code returns the wrapped command itself, not the inner message). -/
inductive TeaValue where
  | noMsg
  | wrappedDone (m : GenerateDoneMsg)
deriving DecidableEq, Repr

/-- Go `makeGenerateDoneErrorMsg` (lines 291-299); `now` stands for
`time.Now()`. -/
def makeGenerateDoneErrorMsg (id : Int) (err : String) (now : Nat) :
    GenerateDoneMsg :=
  { ID := id, Response := "", CreatedAt := now, DoneReason := err,
    Context := [] }

/-- Translation of `respFunc` inside `startGenerating`: a server chunk is
forwarded to `respCh` tagged with the session's own id. -/
def respFuncMsg (id : Int) (c : OllamaGenerateResponse) :
    generateResponseMsg :=
  { ID := id, CreatedAt := c.CreatedAt, Response := c.Response,
    Done := c.Done, DoneReason := c.DoneReason, Context := c.Context }

/-- Go `Session.startGenerating` (lines 245-289) run to completion as one
atomic function: `tok` is the token of the fresh cancellable context created
at line 250, `now` the current time, `oc` the external outcome.  Returns
the mutated session, the chunks pushed onto `respCh`, and the value returned
in `tea.Msg` position. -/
def Session.startGenerating (m : Session) (tok : Nat) (now : Nat)
    (oc : GenOutcome) : Session × List generateResponseMsg × TeaValue :=
  if m.isGenerating then (m, [], .noMsg)
  else
    let m1 := { m with isGenerating := true, hasCtx := true,
                       cancelTok := some tok }
    match oc with
    | .parseFail e =>
      ({ m1 with lastError := some e, isGenerating := false }, [],
        .wrappedDone (makeGenerateDoneErrorMsg m.id e now))
    | .transport chunks err =>
      let sent := chunks.map (respFuncMsg m.id)
      match err with
      | some e =>
        ({ m1 with lastError := some e }, sent,
          .wrappedDone (makeGenerateDoneErrorMsg m.id e now))
      | none => (m1, sent, .noMsg)

/-- Emitted messages among a command list (the `Cmdize` payloads). -/
def emitsOf (cmds : List GenCmd) : List GenEmit :=
  cmds.filterMap fun c =>
    match c with
    | .emit e => some e
    | _ => none

/-- Deliver a list of `generateResponseMsg` values to `Session.Update` in
order, collecting the messages emitted to listeners. -/
def Session.deliverAll (s : Session) :
    List generateResponseMsg → Session × List GenEmit
  | [] => (s, [])
  | c :: rest =>
    let u := s.update (.chunk c)
    let r := u.state.deliverAll rest
    (r.1, emitsOf u.cmds ++ r.2)

/-- Terminal (`GenerateDoneMsg`) messages among a list of emissions. -/
def doneEmits (es : List GenEmit) : List GenerateDoneMsg :=
  es.filterMap fun e =>
    match e with
    | .done d => some d
    | _ => none

/-- Concatenation, in delivery order, of the `Response` fields of a list of
`generateResponseMsg` values, on top of the accumulator `acc` (the
session's `response` field at the start of delivery). -/
def joinRespFrom (acc : String) : List generateResponseMsg → String
  | [] => acc
  | c :: rest => joinRespFrom (acc ++ c.Response) rest

/-- Plain concatenation of the `Response` fields, in delivery order. -/
def concatResponses (cs : List generateResponseMsg) : String :=
  joinRespFrom "" cs

/-!
System model for a generate session under the BubbleTea runtime.

One step is: the event loop delivers one message to `Session.Update`, or one
spawned command makes progress.  Commands spawned by `Update` run
concurrently with the loop, so the execution of `startGenerating` is split
into its observable phases: the issue of the request (guard, flag set,
context creation, URL parse, transport call dispatched), the chunks the call
pushes onto `respCh` while it runs, and the call's return (success or
transport error).  A call created by `startGenerating` is identified by the
token of its context; `activeCalls` lists the tokens of in-flight calls
whose context has not been cancelled, `zombies` those of in-flight calls
whose context has been cancelled (they still terminate with an error and run
the error branch of `startGenerating`).
-/

/-- Whole-system state for one generate session: the session value, the
number of `startGeneratingCmd` commands spawned but not yet executed, the
in-flight transport calls (by context token), the cancelled in-flight calls,
the contents of `respCh`, and the next fresh context token. -/
structure SysState where
  gen : Session
  pending : Nat
  activeCalls : List Nat
  zombies : List Nat
  chan : List generateResponseMsg
  nextTok : Nat
deriving DecidableEq, Repr

/-- Initial system state: a session that has just been created, no command
spawned, no call in flight, empty channel. -/
def initSys (s : Session) : SysState :=
  { gen := s, pending := 0, activeCalls := [], zombies := [], chan := [],
    nextTok := 0 }

/-- Account for one `Session.Update` result at the system level: install the
new session value, spawn the returned `startGeneratingCmd` commands, and if
`cancelFunc()` was invoked on the context of an in-flight call, move that
call from active to cancelled. -/
def applyUpd (st : SysState) (u : GenUpd) : SysState :=
  { st with
    gen := u.state
    pending := st.pending + u.cmds.count .startGen
    activeCalls :=
      match u.cancelSignal with
      | some tok => st.activeCalls.erase tok
      | none => st.activeCalls
    zombies :=
      match u.cancelSignal with
      | some tok =>
        if st.activeCalls.contains tok then st.zombies ++ [tok]
        else st.zombies
      | none => st.zombies }

/-- Deliver one message to `Session.Update` and account for its effects. -/
def deliverSys (st : SysState) (msg : GenMsg) : SysState :=
  applyUpd st (st.gen.update msg)

/-- Execution of a spawned `startGenerating` up to the point where the
transport call is dispatched (guard passed, lines 246-283 before `Generate`
returns): the session mutation is exactly the one `Session.startGenerating`
performs before any chunk or error arrives, and a fresh uncancelled call is
now in flight. -/
def execIssueSys (st : SysState) : SysState :=
  { st with
    pending := st.pending - 1
    gen := (st.gen.startGenerating st.nextTok 0 (.transport [] none)).1
    activeCalls := st.activeCalls ++ [st.nextTok]
    nextTok := st.nextTok + 1 }

/-- Execution of a spawned `startGenerating` whose host URL fails to parse
(lines 246-257): no transport call is dispatched. -/
def execParseFailSys (st : SysState) (e : String) (now : Nat) : SysState :=
  { st with
    pending := st.pending - 1
    gen := (st.gen.startGenerating st.nextTok now (.parseFail e)).1
    nextTok := st.nextTok + 1 }

/-- An in-flight call pushes one streaming chunk onto `respCh` via
`respFunc` (tagged with the session's own id). -/
def emitChunkSys (st : SysState) (c : OllamaGenerateResponse) : SysState :=
  { st with chan := st.chan ++ [respFuncMsg st.gen.id c] }

/-- An in-flight call pushes its final chunk (`Done = true`) and returns
`nil`: the call leaves flight. -/
def finishOkSys (st : SysState) (tok : Nat) (c : OllamaGenerateResponse) :
    SysState :=
  { st with
    chan := st.chan ++ [respFuncMsg st.gen.id c]
    activeCalls := st.activeCalls.erase tok }

/-- An in-flight call returns a transport error: the error branch of
`startGenerating` (lines 284-287) sets `lastError`; the returned
`Cmdize(...)` value is dropped by the runtime (it is a command in message
position, matching no `Update` case). -/
def finishErrSys (st : SysState) (tok : Nat) (e : String) : SysState :=
  { st with
    activeCalls := st.activeCalls.erase tok
    gen := { st.gen with lastError := some e } }

/-- A cancelled in-flight call terminates: `Generate` returns the
cancellation error and the error branch of `startGenerating` runs. -/
def finishZombieSys (st : SysState) (tok : Nat) (e : String) : SysState :=
  { st with
    zombies := st.zombies.erase tok
    gen := { st.gen with lastError := some e } }

/-- One system step, as described in the section header. -/
inductive SysStep : SysState → SysState → Prop where
  | deliverStart (st : SysState) (i : Int) :
      SysStep st (deliverSys st (.start i))
  | deliverStop (st : SysState) (i : Int) :
      SysStep st (deliverSys st (.stop i))
  | deliverChunk (st : SysState) (c : generateResponseMsg)
      (rest : List generateResponseMsg) (h : st.chan = c :: rest) :
      SysStep st (deliverSys { st with chan := rest } (.chunk c))
  | execGuard (st : SysState) (h : 0 < st.pending)
      (hg : st.gen.isGenerating = true) :
      SysStep st { st with pending := st.pending - 1 }
  | execIssue (st : SysState) (h : 0 < st.pending)
      (hg : st.gen.isGenerating = false) :
      SysStep st (execIssueSys st)
  | execParseFail (st : SysState) (e : String) (now : Nat)
      (h : 0 < st.pending) (hg : st.gen.isGenerating = false) :
      SysStep st (execParseFailSys st e now)
  | emitChunk (st : SysState) (tok : Nat) (c : OllamaGenerateResponse)
      (h : st.activeCalls.contains tok = true) (hd : c.Done = false) :
      SysStep st (emitChunkSys st c)
  | finishOk (st : SysState) (tok : Nat) (c : OllamaGenerateResponse)
      (h : st.activeCalls.contains tok = true) (hd : c.Done = true) :
      SysStep st (finishOkSys st tok c)
  | finishErr (st : SysState) (tok : Nat) (e : String)
      (h : st.activeCalls.contains tok = true) :
      SysStep st (finishErrSys st tok e)
  | finishZombie (st : SysState) (tok : Nat) (e : String)
      (h : st.zombies.contains tok = true) :
      SysStep st (finishZombieSys st tok e)

/-- Reachability of system states. -/
def SysReach : SysState → SysState → Prop :=
  Relation.ReflTransGen SysStep

/-!
Embedding session (src/unnamed/part_004, package file for the Ollama /embed
call).
-/

/-- External `ollama.EmbedResponse`; the float payload is opaque to this
repository, so embedding vectors are modelled as opaque integer lists. -/
structure EmbedResponse where
  Model : String
  Embeddings : List (List Int)
deriving DecidableEq, Repr

/-- Go struct `EmbedSession`; private fields modelled as in `Session`. -/
structure EmbedSession where
  Host : String
  Model : String
  Options : List (String × String)
  Input : Option String
  KeepAlive : Option Nat
  Truncate : Option Bool
  hasCtx : Bool
  cancelTok : Option Nat
  id : Int
  lastError : Option String
  isEmbedding : Bool
  response : Option EmbedResponse
deriving DecidableEq, Repr

/-- Go `NewEmbedSession` (before options are applied) with the given fresh
id. -/
def NewEmbedSession (id : Int) : EmbedSession :=
  { Host := DefaultHost
    Model := DefaultModel
    Options := []
    Input := none
    KeepAlive := none
    Truncate := none
    hasCtx := false
    cancelTok := none
    id := id
    lastError := none
    isEmbedding := false
    response := none }

/-- Messages handled by `EmbedSession.Update`: `StartEmbedMsg`,
`StopEmbedMsg`, `EmbedResponseMsg` and `EmbedErrorMsg`. -/
inductive EmbedMsg where
  | start (ID : Int)
  | stop (ID : Int)
  | resp (ID : Int) (CreatedAt : Nat) (Response : EmbedResponse)
  | err (ID : Int) (CreatedAt : Nat) (Error : String)
deriving DecidableEq, Repr

/-- Command returned by `EmbedSession.Update`: `startEmbeddingCmd`. -/
inductive EmbedCmd where
  | startEmbed
deriving DecidableEq, Repr

/-- Result of one `EmbedSession.Update` call; `cancelSignal` as in
`GenUpd`. -/
structure EmbedUpd where
  state : EmbedSession
  cmd : Option EmbedCmd
  cancelSignal : Option Nat
deriving DecidableEq, Repr

/-- Go `EmbedSession.Update` (part_004 lines 182-222), translated case by
case.  Note that the `EmbedResponseMsg` and `EmbedErrorMsg` cases carry no
id guard in the source. -/
def EmbedSession.update (m : EmbedSession) : EmbedMsg → EmbedUpd
  | .start i =>
    if i ≠ m.id then ⟨m, none, none⟩
    else if m.isEmbedding then
      ⟨{ m with cancelTok := none, hasCtx := false, isEmbedding := false },
        some .startEmbed, m.cancelTok⟩
    else ⟨m, some .startEmbed, none⟩
  | .stop i =>
    if i ≠ m.id then ⟨m, none, none⟩
    else
      ⟨{ m with cancelTok := none, hasCtx := false, isEmbedding := false },
        none, m.cancelTok⟩
  | .resp _ _ r => ⟨{ m with response := some r, lastError := none }, none, none⟩
  | .err _ _ e => ⟨{ m with response := none, lastError := some e }, none, none⟩

/-- Whether a message is a result (`EmbedResponseMsg` or `EmbedErrorMsg`)
delivered back from an embed call. -/
def isEmbedResult : EmbedMsg → Bool
  | .resp .. => true
  | .err .. => true
  | _ => false

/-!
Model chooser (src/model_chooser.go).  The external `bubbles/list` widget is
modelled by the two facets the chooser drives: its item list (`SetItems`)
and its cursor (`Select`); the spinner is not modelled (the claims under
check do not touch it, and on the mismatched-id paths the source returns the
receiver unchanged before reaching either widget).
-/

/-- External `ollama.ListModelResponse`, restricted to the fields the
chooser reads. -/
structure ListModelResponse where
  Name : String
  Size : Nat
  Family : String
  ParameterSize : String
  QuantizationLevel : String
deriving DecidableEq, Repr

/-- Go struct `modelChooserListItem`. -/
structure modelChooserListItem where
  index : Nat
  title : String
  desc : String
deriving DecidableEq, Repr

/-- Go `makeModelChooserListItem`; the external `humanize.Bytes` formatting
is abstracted to the decimal size (only the `index`/`title` fields are read
by the chooser logic). -/
def makeModelChooserListItem (index : Nat) (model : ListModelResponse) :
    modelChooserListItem :=
  { index := index, title := model.Name,
    desc := "(" ++ toString model.Size ++ ") " ++ model.Family ++ " " ++
      model.ParameterSize ++ " " ++ model.QuantizationLevel }

/-- Go struct `ModelChooser`; `modelListItems`/`modelListCursor` model the
embedded `list.Model` widget state. -/
structure ModelChooser where
  Waiting : String
  MenuPrompt : String
  FetchOnInit : Bool
  modelListItems : List modelChooserListItem
  modelListCursor : Nat
  listedModels : List ListModelResponse
  selectedModel : Option ListModelResponse
  selectedName : String
  id : Int
  ollamaHost : String
  isFetching : Bool
  lastError : Option String
deriving DecidableEq, Repr

/-- Go `NewModelChooser` with the given fresh id. -/
def NewModelChooser (id : Int) (ollamaHost : String) : ModelChooser :=
  { Waiting := "Loading models..."
    MenuPrompt := "Select Ollama model"
    FetchOnInit := true
    modelListItems := []
    modelListCursor := 0
    listedModels := []
    selectedModel := none
    selectedName := ""
    id := id
    ollamaHost := ollamaHost
    isFetching := false
    lastError := none }

/-- Loop body of `SetSelectionByName` (model_chooser.go lines 175-182):
first entry whose name matches wins. -/
def setSelectionLoop (m : ModelChooser) (name : String) :
    List (Nat × ListModelResponse) → ModelChooser × Bool
  | [] => (m, false)
  | (i, lm) :: rest =>
    if lm.Name = name then
      ({ m with selectedModel := some lm, modelListCursor := i,
                selectedName := name }, true)
    else setSelectionLoop m name rest

/-- Go `ModelChooser.SetSelectionByName` (lines 170-184). -/
def ModelChooser.SetSelectionByName (m : ModelChooser) (name : String) :
    ModelChooser × Bool :=
  if m.listedModels.length = 0 then ({ m with selectedName := name }, true)
  else setSelectionLoop m name m.listedModels.enum

/-- Selection condition of the fetch-response loop (lines 310-311). -/
def chooserSelCond (m : ModelChooser) (lm : ListModelResponse) : Bool :=
  (match m.selectedModel with
   | some sm => lm.Name == sm.Name
   | none => false) ||
  (m.selectedName != "" && lm.Name == m.selectedName)

/-- Loop of lines 307-314 computing `selectedIndex`: the index of the last
entry satisfying the condition, `-1` if none. -/
def selIndexGo (cond : ListModelResponse → Bool) :
    Nat → Int → List ListModelResponse → Int
  | _, acc, [] => acc
  | i, acc, lm :: rest =>
    selIndexGo cond (i + 1) (if cond lm then (i : Int) else acc) rest

/-- Index selected by the fetch-response handler for the fetched list
`models`, given the pre-update chooser `m`. -/
def chooserSelIndex (m : ModelChooser) (models : List ListModelResponse) :
    Int :=
  selIndexGo (chooserSelCond m) 0 (-1) models

/-- Default used for (always in-range) list indexing in the translation. -/
def defaultListModelResponse : ListModelResponse :=
  { Name := "", Size := 0, Family := "", ParameterSize := "",
    QuantizationLevel := "" }

/-- Messages handled by the fetch part of `ModelChooser.Update`:
`fetchListMsg`, `FetchModelListResponseMsg`, `FetchModelListErrorMsg`. -/
inductive ChooserMsg where
  | fetchList (ID : Int) (OllamaHost : String)
  | fetchResp (ID : Int) (OllamaHost : String)
      (Models : List ListModelResponse)
  | fetchErr (ID : Int) (OllamaHost : String) (Error : String)
deriving DecidableEq, Repr

/-- Commands returned by the fetch part of `ModelChooser.Update`. -/
inductive ChooserCmd where
  | startFetching
  | spinnerTick
  | setItems (items : List modelChooserListItem)
deriving DecidableEq, Repr

/-- Go `ModelChooser.Update` (lines 288-330), fetch-message cases,
translated case by case.  The source uses a value receiver, so an early
`return m, nil` leaves every field with its prior value. -/
def ModelChooser.update (m : ModelChooser) :
    ChooserMsg → ModelChooser × List ChooserCmd
  | .fetchList i _ =>
    if i ≠ m.id then (m, [])
    else ({ m with isFetching := true }, [.startFetching, .spinnerTick])
  | .fetchResp i _ models =>
    if i ≠ m.id then (m, [])
    else
      let m1 := { m with isFetching := false, listedModels := models,
                         lastError := none }
      let items := models.enum.map fun p => makeModelChooserListItem p.1 p.2
      let selectedIndex := chooserSelIndex m models
      let m2 :=
        if selectedIndex < 0 then { m1 with selectedModel := none }
        else
          { m1 with
            modelListCursor := selectedIndex.toNat
            selectedName :=
              (models.getD selectedIndex.toNat defaultListModelResponse).Name }
      ({ m2 with modelListItems := items }, [.setItems items])
  | .fetchErr i _ e =>
    if i ≠ m.id then (m, [])
    else ({ m with isFetching := false, lastError := some e }, [])

/-!
Conversion utility (`ConvertTerminalTextToImage`, package file shown in the
ot-timechart sources).  The external `go-ansi-to-image` library is out of
scope of the repository; it is modelled as a record of functions — one per
call the wrapper makes (`NewConverter`, `Parse`, `ToPNG`) — over an
abstract configuration type `Cfg`, together with the library's
`DefaultConfig` value.  A converter value is determined by the
configuration it was created from and the text parsed into it, so the
composite calls are functions of those two arguments.
-/

/-- Model of the external `go-ansi-to-image` library. -/
structure AnsiToImageLib (Cfg : Type) where
  defaultConfig : Cfg
  newConverterErr : Cfg → Option String
  parseErr : Cfg → String → Option String
  toPNGResult : Cfg → String → Except String (List Nat)

/-- Errors of `ConvertTerminalTextToImage`, one per failure condition, each
carrying the underlying cause (the `fmt.Errorf` wrappings of the source). -/
inductive ConvertError where
  | converterFailed (cause : String)
  | renderFailed (cause : String)
  | pngFailed (cause : String)
deriving DecidableEq, Repr

/-- Go `ConvertTerminalTextToImage`: nil configuration falls back to the
library's `DefaultConfig`; the three stages fail with distinct wrapped
errors. -/
def ConvertTerminalTextToImage {Cfg : Type} (lib : AnsiToImageLib Cfg)
    (terminalText : String) (convertConfig : Option Cfg) :
    Except ConvertError (List Nat) :=
  let cfg := match convertConfig with
    | none => lib.defaultConfig
    | some c => c
  match lib.newConverterErr cfg with
  | some e => .error (.converterFailed e)
  | none =>
    match lib.parseErr cfg terminalText with
    | some e => .error (.renderFailed e)
    | none =>
      match lib.toPNGResult cfg terminalText with
      | .error e => .error (.pngFailed e)
      | .ok pngBytes => .ok pngBytes

/-!
Concrete inputs used by the claim theorems below.
-/

/-- Final server chunk of the first generation in the C1 trace. -/
def c1Done1 : OllamaGenerateResponse :=
  { CreatedAt := 5, Response := "A", Done := true, DoneReason := "stop",
    Context := [] }

/-- C1 trace, state 0: a freshly created session. -/
def c1St0 : SysState := initSys (NewSession 1)

/-- C1 trace, state 1: a `StartGenerateMsg` for the session is delivered. -/
def c1St1 : SysState := deliverSys c1St0 (.start 1)

/-- C1 trace, state 2: the spawned start command issues the first call. -/
def c1St2 : SysState := execIssueSys c1St1

/-- C1 trace, state 3: the first call pushes its final chunk and returns;
the chunk is still queued in `respCh`. -/
def c1St3 : SysState := finishOkSys c1St2 0 c1Done1

/-- C1 trace, state 4: a second `StartGenerateMsg` is delivered before the
queued final chunk is processed (the cancel branch runs on the finished
call's context). -/
def c1St4 : SysState := deliverSys c1St3 (.start 1)

/-- C1 trace, state 5: the second start command issues the second call. -/
def c1St5 : SysState := execIssueSys c1St4

/-- C1 trace, state 6: the stale final chunk of the first generation is now
processed; it clears `isGenerating` although the second call is in
flight. -/
def c1St6 : SysState :=
  deliverSys { c1St5 with chan := [] } (.chunk (respFuncMsg 1 c1Done1))

/-- C1 trace, state 7: a third `StartGenerateMsg` is delivered; since
`isGenerating` is false, the cancel branch is skipped. -/
def c1St7 : SysState := deliverSys c1St6 (.start 1)

/-- C1 trace, state 8: the third start command passes the
`if m.isGenerating` guard and issues a third call while the second is still
in flight and uncancelled. -/
def c1St8 : SysState := execIssueSys c1St7

/-- C2 counterexample: final chunk of the first generation. -/
def c2ChunkA : generateResponseMsg :=
  { ID := 1, CreatedAt := 0, Response := "A", Done := true,
    DoneReason := "stop", Context := [] }

/-- C2 counterexample: server chunk of the second generation. -/
def c2ServerB : OllamaGenerateResponse :=
  { CreatedAt := 2, Response := "B", Done := true, DoneReason := "stop",
    Context := [] }

/-- C2 counterexample: session after the first generation completed with
full response "A". -/
def c2Sess1 : Session := ((NewSession 1).deliverAll [c2ChunkA]).1

/-- C2 counterexample: session after a second `StartGenerateMsg` was
handled (note `Update` does not clear `response`). -/
def c2Sess2 : Session := (c2Sess1.update (.start 1)).state

/-- C2 counterexample: the second `startGenerating` runs, streaming the
single chunk `c2ServerB`. -/
def c2Run2 : Session × List generateResponseMsg × TeaValue :=
  c2Sess2.startGenerating 1 3 (.transport [c2ServerB] none)

/-- C2 counterexample: messages emitted while the second generation's
chunks are delivered. -/
def c2Emits : List GenEmit := (c2Run2.1.deliverAll c2Run2.2.1).2

/-- C3 failing input: `startGenerating` on an idle session whose host URL
parses but whose transport call fails. -/
def c3Transport : Session × List generateResponseMsg × TeaValue :=
  (NewSession 1).startGenerating 0 9 (.transport [] (some "connection refused"))

/-- C3 companion input: `startGenerating` whose host URL fails to parse. -/
def c3Parse : Session × List generateResponseMsg × TeaValue :=
  (NewSession 1).startGenerating 0 9 (.parseFail "bad host")

/-- C4 witness input: an embedding session with an in-flight call whose
cancel handle carries token 3. -/
def c4WitSession : EmbedSession :=
  { NewEmbedSession 1 with isEmbedding := true, cancelTok := some 3 }

/-- C4 witness input: a concrete embedding result payload. -/
def c4WitResp : EmbedResponse := { Model := "m", Embeddings := [[1]] }

/-- C7 witness input: a generating session with accumulated response
"abc". -/
def c7WitSession : Session :=
  { NewSession 4 with isGenerating := true, cancelTok := some 2,
                      hasCtx := true, response := "abc" }

/-- C8 witness input: a concrete rasterizer-library model over `Nat`
configurations. -/
def c8WitLib : AnsiToImageLib Nat :=
  { defaultConfig := 0
    newConverterErr := fun _ => none
    parseErr := fun _ _ => none
    toPNGResult := fun _ _ => .ok [4, 2] }

/-- C6 counterexample: the fetched model list, containing a model named
"a". -/
def c6Models : List ListModelResponse :=
  [{ Name := "a", Size := 10, Family := "f", ParameterSize := "p",
     QuantizationLevel := "q" }]

/-- C6 counterexample: a fresh chooser whose selection was set by name
before any fetch completed. -/
def c6Before : ModelChooser :=
  ((NewModelChooser 7 "h").SetSelectionByName "a").1

/-- C6 counterexample: the chooser after a successful fetch whose list
contains an entry with exactly the pending name. -/
def c6After : ModelChooser := (c6Before.update (.fetchResp 7 "h" c6Models)).1

/-!
Claim theorems.
-/

/-- C3: the claim says that on a host-URL parse failure or a transport
failure the in-progress flag is cleared, the last error is set, and a
terminal event with empty response and the error text as stop reason is
delivered to listeners.  Evaluating `startGenerating` at the failing input
(transport failure): `lastError` is set, but `isGenerating` is left `true`
(only the parse branch clears it, compare the two halves below), and on
both branches the synthesized `GenerateDoneMsg` is returned wrapped in an
extra command layer (`Cmdize(...)` in `tea.Msg` position), not as a plain
message. -/
theorem c3_error_paths_evaluated :
    (c3Transport.1.isGenerating = true ∧
     c3Transport.1.lastError = some "connection refused" ∧
     c3Transport.2.2 =
       .wrappedDone (makeGenerateDoneErrorMsg 1 "connection refused" 9)) ∧
    (c3Parse.1.isGenerating = false ∧
     c3Parse.1.lastError = some "bad host" ∧
     c3Parse.2.2 = .wrappedDone (makeGenerateDoneErrorMsg 1 "bad host" 9)) := by
  decide

/-- C4: starting an embedding while one is in flight cancels the in-flight
call before reissuing (the cancel handle is invoked and released, the flag
cleared, and a new start command spawned), and the state left by any result
message is a function of that result alone: a success stores the response
and clears the error, a failure clears the response and stores the error —
never a mixture of two outcomes. -/
theorem c4_embed_restart_cancels_and_single_outcome
    (s s2 : EmbedSession) (tok : Nat) (msg : EmbedMsg)
    (hemb : s.isEmbedding = true) (htok : s.cancelTok = some tok)
    (hres : isEmbedResult msg = true) :
    ((s.update (.start s.id)).cancelSignal = some tok ∧
     (s.update (.start s.id)).state.cancelTok = none ∧
     (s.update (.start s.id)).state.isEmbedding = false ∧
     (s.update (.start s.id)).cmd = some .startEmbed) ∧
    ((s.update msg).state.response = (s2.update msg).state.response ∧
     (s.update msg).state.lastError = (s2.update msg).state.lastError) ∧
    (((s.update msg).state.response ≠ none ∧
      (s.update msg).state.lastError = none) ∨
     ((s.update msg).state.response = none ∧
      (s.update msg).state.lastError ≠ none)) := by
  refine ⟨?_, ?_, ?_⟩
  · simp [EmbedSession.update, hemb, htok]
  · cases msg <;> simp_all [EmbedSession.update, isEmbedResult]
  · cases msg <;> simp_all [EmbedSession.update, isEmbedResult]

/-- C4 witness: a concrete embedding session with an in-flight call. -/
theorem c4_embed_restart_cancels_and_single_outcome_witness :
    (c4WitSession.update (.start c4WitSession.id)).cancelSignal = some 3 ∧
    (c4WitSession.update (.resp 9 0 c4WitResp)).state.response =
      some c4WitResp :=
  ⟨(c4_embed_restart_cancels_and_single_outcome c4WitSession
      (NewEmbedSession 2) 3 (.resp 9 0 c4WitResp)
      (by decide) (by decide) (by decide)).1.1,
   by decide⟩

/-- C5: a fetch result whose request id differs from the chooser's id is
ignored: the chooser is returned unchanged (every field keeps its prior
value, the source returns the receiver before touching anything) and no
command is issued, for both the success and the error message. -/
theorem c5_chooser_ignores_foreign_results (m : ModelChooser) (i : Int)
    (host : String) (models : List ListModelResponse) (e : String)
    (hne : i ≠ m.id) :
    m.update (.fetchResp i host models) = (m, []) ∧
    m.update (.fetchErr i host e) = (m, []) := by
  constructor <;> simp [ModelChooser.update, hne]

/-- C5 witness: a chooser with id 1 receiving results tagged with id 2. -/
theorem c5_chooser_ignores_foreign_results_witness :
    (NewModelChooser 1 "h").update
        (.fetchResp 2 "h" [defaultListModelResponse]) =
      (NewModelChooser 1 "h", []) ∧
    (NewModelChooser 1 "h").update (.fetchErr 2 "h" "boom") =
      (NewModelChooser 1 "h", []) :=
  c5_chooser_ignores_foreign_results (NewModelChooser 1 "h") 2 "h"
    [defaultListModelResponse] "boom" (by decide)

/-- C7: a `StopGenerateMsg` carrying the session's own id invokes the
cancel handle exactly when one is present (`cancelSignal = s.cancelTok`),
releases it, clears the in-progress flag (transition to Idle), issues no
command, and — since the record update touches no other field — leaves the
accumulated response (and every request field) unchanged. -/
theorem c7_stop_transitions_to_idle (s : Session) (i : Int) (h : i = s.id) :
    s.update (.stop i) =
      ⟨{ s with isGenerating := false, cancelTok := none, hasCtx := false },
        [], s.cancelTok⟩ := by
  subst h
  simp [Session.update]

/-- C7 witness: a concrete generating session with response "abc". -/
theorem c7_stop_transitions_to_idle_witness :
    c7WitSession.update (.stop 4) =
      ⟨{ c7WitSession with isGenerating := false, cancelTok := none,
                           hasCtx := false },
        [], c7WitSession.cancelTok⟩ :=
  c7_stop_transitions_to_idle c7WitSession 4 (by decide)

/-- C8: `ConvertTerminalTextToImage` is a pure function of the terminal
text, the configuration, and the (fixed, external) rasterizer library: two
calls with identical input and configuration produce identical results —
the same bytes on success, the same error classification on failure — and
the nil configuration behaves exactly as the library's default
configuration. -/
theorem c8_convert_deterministic {Cfg : Type} (lib : AnsiToImageLib Cfg)
    (t1 t2 : String) (c1 c2 : Option Cfg) (ht : t1 = t2) (hc : c1 = c2) :
    ConvertTerminalTextToImage lib t1 c1 =
      ConvertTerminalTextToImage lib t2 c2 ∧
    ConvertTerminalTextToImage lib t1 none =
      ConvertTerminalTextToImage lib t1 (some lib.defaultConfig) := by
  subst ht
  subst hc
  exact ⟨rfl, rfl⟩

/-- C8 witness: a concrete library model over `Nat` configurations. -/
theorem c8_convert_deterministic_witness :
    ConvertTerminalTextToImage c8WitLib "hello" none =
      ConvertTerminalTextToImage c8WitLib "hello" none ∧
    ConvertTerminalTextToImage c8WitLib "hello" none =
      ConvertTerminalTextToImage c8WitLib "hello"
        (some c8WitLib.defaultConfig) :=
  c8_convert_deterministic c8WitLib "hello" "hello" none none rfl rfl

/-- C9: `EmbedSession.Update` applies every `EmbedResponseMsg` and every
`EmbedErrorMsg` to the session state whatever the message's ID field is
(the source has no id guard on these cases): for an arbitrary id `i` —
including any id different from the session's — the stored response and
error are overwritten. -/
theorem c9_embed_results_apply_regardless_of_id (s : EmbedSession) (i : Int)
    (t : Nat) (r : EmbedResponse) (e : String) :
    (s.update (.resp i t r)).state.response = some r ∧
    (s.update (.resp i t r)).state.lastError = none ∧
    (s.update (.err i t e)).state.response = none ∧
    (s.update (.err i t e)).state.lastError = some e := by
  simp [EmbedSession.update]

/-- C10: a `StartGenerateMsg`, `StopGenerateMsg` or `generateResponseMsg`
whose ID differs from the session's id leaves the session completely
unchanged, issues no command and invokes no cancellation. -/
theorem c10_session_ignores_foreign_messages (s : Session) (i : Int)
    (c : generateResponseMsg) (hi : i ≠ s.id) (hc : c.ID ≠ s.id) :
    s.update (.start i) = ⟨s, [], none⟩ ∧
    s.update (.stop i) = ⟨s, [], none⟩ ∧
    s.update (.chunk c) = ⟨s, [], none⟩ := by
  refine ⟨?_, ?_, ?_⟩ <;> simp [Session.update, hi, hc]

/-- C10 witness: session id 1, messages tagged with id 2. -/
theorem c10_session_ignores_foreign_messages_witness :
    (NewSession 1).update (.start 2) = ⟨NewSession 1, [], none⟩ ∧
    (NewSession 1).update (.stop 2) = ⟨NewSession 1, [], none⟩ ∧
    (NewSession 1).update (.chunk ⟨2, 0, "x", false, "", []⟩) =
      ⟨NewSession 1, [], none⟩ :=
  c10_session_ignores_foreign_messages (NewSession 1) 2
    ⟨2, 0, "x", false, "", []⟩ (by decide) (by decide)

/-- Helper for C2: delivering a run of same-id streaming chunks followed by
one same-id final chunk emits exactly one terminal message, whose response
is the accumulated response at the start of delivery extended by the
chunks' responses in delivery order. -/
theorem deliverAll_done_emit (ps : List generateResponseMsg) :
    ∀ (s : Session) (p : generateResponseMsg),
      (∀ q ∈ ps, q.ID = s.id ∧ q.Done = false) → p.ID = s.id →
      p.Done = true →
      doneEmits (s.deliverAll (ps ++ [p])).2 =
        [⟨s.id, joinRespFrom s.response (ps ++ [p]), p.CreatedAt,
          p.DoneReason, p.Context⟩] := by
  induction ps with
  | nil =>
    intro s p _ hid hdone
    simp [Session.deliverAll, Session.update, hid, hdone, emitsOf,
      doneEmits, joinRespFrom]
  | cons q rest ih =>
    intro s p hps hid hdone
    have hq := hps q (List.mem_cons_self q rest)
    have hrest : ∀ x ∈ rest,
        x.ID = ({ s with response := s.response ++ q.Response } : Session).id ∧
        x.Done = false :=
      fun x hx => hps x (List.mem_cons_of_mem q hx)
    have hstep :=
      ih { s with response := s.response ++ q.Response } p hrest hid hdone
    simpa [Session.deliverAll, Session.update, hq.1, hq.2, emitsOf,
      doneEmits, joinRespFrom] using hstep

/-- C2 (amended): for a completed generation whose streaming chunks `ps`
and final chunk `p` all carry the session's id, the terminal
`GenerateDoneMsg` emitted by `Update` carries as `Response` the session's
accumulated response at the start of delivery extended, in delivery order,
by the `Response` fields of all of the request's `generateResponseMsg`
events (final chunk included); this equals the plain concatenation of
those fields exactly when the accumulated response was empty at the start
(a new start does not clear the previous response). -/
theorem c2_done_response_accumulates (s : Session)
    (ps : List generateResponseMsg) (p : generateResponseMsg)
    (hps : ∀ q ∈ ps, q.ID = s.id ∧ q.Done = false) (hid : p.ID = s.id)
    (hdone : p.Done = true) :
    doneEmits (s.deliverAll (ps ++ [p])).2 =
      [⟨s.id, joinRespFrom s.response (ps ++ [p]), p.CreatedAt,
        p.DoneReason, p.Context⟩] ∧
    (s.response = "" →
      joinRespFrom s.response (ps ++ [p]) = concatResponses (ps ++ [p])) := by
  refine ⟨deliverAll_done_emit ps s p hps hid hdone, fun h => ?_⟩
  rw [h]
  rfl

/-- C2 witness: a fresh session receiving chunks "He" then final "llo". -/
theorem c2_done_response_accumulates_witness :
    doneEmits ((NewSession 1).deliverAll
        ([⟨1, 0, "He", false, "", []⟩] ++ [⟨1, 1, "llo", true, "stop", []⟩])).2 =
      [⟨(NewSession 1).id,
        joinRespFrom (NewSession 1).response
          ([⟨1, 0, "He", false, "", []⟩] ++ [⟨1, 1, "llo", true, "stop", []⟩]),
        1, "stop", []⟩] ∧
    ((NewSession 1).response = "" →
      joinRespFrom (NewSession 1).response
          ([⟨1, 0, "He", false, "", []⟩] ++ [⟨1, 1, "llo", true, "stop", []⟩]) =
        concatResponses
          ([⟨1, 0, "He", false, "", []⟩] ++ [⟨1, 1, "llo", true, "stop", []⟩])) :=
  c2_done_response_accumulates (NewSession 1) [⟨1, 0, "He", false, "", []⟩]
    ⟨1, 1, "llo", true, "stop", []⟩ (by decide) (by decide) (by decide)

/-- C2 counterexample: after a first generation completed with response
"A", a second `StartGenerateMsg` is handled and the second generation
streams the single final chunk "B"; the terminal event of that second,
completed generation carries "AB", not the concatenation "B" of the
partial-response events delivered for that request. -/
theorem c2_counterexample :
    c2Run2.2.1 = [respFuncMsg 1 c2ServerB] ∧
    doneEmits c2Emits = [⟨1, "AB", 2, "stop", []⟩] ∧
    concatResponses c2Run2.2.1 = "B" ∧
    (doneEmits c2Emits).map GenerateDoneMsg.Response ≠
      [concatResponses c2Run2.2.1] := by
  decide

/-- Helper for C6: the `selectedIndex` loop leaves the accumulator
untouched when no entry satisfies the condition. -/
theorem selIndexGo_of_all_neg (cond : ListModelResponse → Bool)
    (l : List ListModelResponse) :
    ∀ (i : Nat) (acc : Int), (∀ x ∈ l, cond x = false) →
      selIndexGo cond i acc l = acc := by
  induction l with
  | nil => intro i acc _; rfl
  | cons x xs ih =>
    intro i acc h
    have hx := h x (List.mem_cons_self x xs)
    simp only [selIndexGo, hx, if_neg Bool.false_ne_true]
    exact ih (i + 1) acc fun y hy => h y (List.mem_cons_of_mem x hy)

/-- Helper for C6: if some entry satisfies the condition, the
`selectedIndex` loop returns the offset `i + k` of a satisfying entry. -/
theorem selIndexGo_of_any (cond : ListModelResponse → Bool)
    (l : List ListModelResponse) :
    ∀ (i : Nat) (acc : Int), l.any cond = true →
      ∃ k, ∃ hk : k < l.length, cond (l.get ⟨k, hk⟩) = true ∧
        selIndexGo cond i acc l = ((i : Int) + (k : Int)) := by
  induction l with
  | nil => intro i acc h; simp at h
  | cons x xs ih =>
    intro i acc h
    by_cases hx : cond x = true
    · by_cases hxs : xs.any cond = true
      · obtain ⟨k, hk, hc, he⟩ := ih (i + 1) ((i : Int)) hxs
        refine ⟨k + 1, Nat.succ_lt_succ hk, hc, ?_⟩
        simp only [selIndexGo, hx, if_pos rfl, if_true, he]
        push_cast
        ring
      · have hall : ∀ y ∈ xs, cond y = false := by
          intro y hy
          by_contra hcy
          exact hxs (List.any_eq_true.2 ⟨y, hy, by simpa using hcy⟩)
        refine ⟨0, Nat.succ_pos xs.length, hx, ?_⟩
        simp only [selIndexGo, hx, if_true]
        rw [selIndexGo_of_all_neg cond xs (i + 1) ((i : Int)) hall]
        simp
    · have hxs : xs.any cond = true := by
        rcases List.any_eq_true.1 h with ⟨y, hy, hcy⟩
        rcases List.mem_cons.1 hy with rfl | hy2
        · exact absurd (by simpa using hcy) hx
        · exact List.any_eq_true.2 ⟨y, hy2, hcy⟩
      obtain ⟨k, hk, hc, he⟩ := ih (i + 1) acc hxs
      refine ⟨k + 1, Nat.succ_lt_succ hk, hc, ?_⟩
      have hxf : cond x = false := by simpa using hx
      simp only [selIndexGo, hxf, if_neg Bool.false_ne_true, he]
      push_cast
      ring

/-- Helper for C6: shape of the fetch-response update when the selection
loop found index `k`: the list cursor moves to `k`, the pending name is
set from the entry at `k`, and `selectedModel` is left at its prior
value. -/
theorem update_fetchResp_found (m1 : ModelChooser) (host : String)
    (models : List ListModelResponse) (k : Nat)
    (hidx : chooserSelIndex m1 models = (k : Int)) :
    (m1.update (.fetchResp m1.id host models)).1.modelListCursor = k ∧
    (m1.update (.fetchResp m1.id host models)).1.selectedName =
      (models.getD k defaultListModelResponse).Name ∧
    (m1.update (.fetchResp m1.id host models)).1.selectedModel =
      m1.selectedModel := by
  have hnonneg : ¬ ((k : Int) < 0) := Int.not_lt.2 (Int.natCast_nonneg k)
  simp [ModelChooser.update, hidx, hnonneg]

/-- Helper for C6: shape of the fetch-response update when the selection
loop found nothing: the selection is cleared. -/
theorem update_fetchResp_notfound (m1 : ModelChooser) (host : String)
    (models : List ListModelResponse)
    (hidx : chooserSelIndex m1 models = -1) :
    (m1.update (.fetchResp m1.id host models)).1.selectedModel = none := by
  simp [ModelChooser.update, hidx]

/-- C6 (amended): if a selection name is set via `SetSelectionByName`
before any fetch completed (so the listed models are empty and no model is
selected), then a later successful fetch whose list contains an entry with
exactly that name moves the list-widget cursor to such an entry's index
and keeps the pending name — but it does not set the selected model, so
`SelectedModel` still returns nil; and if no entry of the fetched list
matches the pending name, the selection likewise remains empty
(`SelectedModel` returns nil). -/
theorem c6_pending_name_moves_cursor_not_selection (m : ModelChooser)
    (name host : String) (models : List ListModelResponse)
    (hempty : m.listedModels = []) (hsel : m.selectedModel = none)
    (hname : name ≠ "") :
    (models.any (fun lm => lm.Name == name) = true →
      ∃ k, ∃ hk : k < models.length,
        (models.get ⟨k, hk⟩).Name = name ∧
        ((m.SetSelectionByName name).1.update
            (.fetchResp m.id host models)).1.modelListCursor = k ∧
        ((m.SetSelectionByName name).1.update
            (.fetchResp m.id host models)).1.selectedName = name ∧
        ((m.SetSelectionByName name).1.update
            (.fetchResp m.id host models)).1.selectedModel = none) ∧
    (models.any (fun lm => lm.Name == name) = false →
      ((m.SetSelectionByName name).1.update
          (.fetchResp m.id host models)).1.selectedModel = none) := by
  have hm1 : (m.SetSelectionByName name).1 = { m with selectedName := name } := by
    simp [ModelChooser.SetSelectionByName, hempty]
  have hmid : ({ m with selectedName := name } : ModelChooser).id = m.id := rfl
  have hcond :
      chooserSelCond { m with selectedName := name } =
        fun lm => lm.Name == name := by
    funext lm
    simp [chooserSelCond, hsel, hname]
  constructor
  · intro hany
    obtain ⟨k, hk, hc, he⟩ :=
      selIndexGo_of_any (fun lm => lm.Name == name) models 0 (-1) hany
    have hidx :
        chooserSelIndex { m with selectedName := name } models = (k : Int) := by
      rw [chooserSelIndex, hcond, he]
      simp
    have hfound :=
      update_fetchResp_found { m with selectedName := name } host models k hidx
    have hgd :
        models.getD k defaultListModelResponse = models.get ⟨k, hk⟩ := by
      simp [List.getD_eq_getElem?_getD, List.getElem?_eq_getElem hk]
    have hnm : (models.get ⟨k, hk⟩).Name = name := by simpa using hc
    refine ⟨k, hk, hnm, ?_, ?_, ?_⟩
    · rw [hm1, ← hmid]
      exact hfound.1
    · rw [hm1, ← hmid]
      rw [hfound.2.1, hgd, hnm]
    · rw [hm1, ← hmid]
      rw [hfound.2.2]
      exact hsel
  · intro hnone
    have hall : ∀ x ∈ models, (fun lm => lm.Name == name) x = false := by
      intro x hx
      by_contra hcx
      have : models.any (fun lm => lm.Name == name) = true :=
        List.any_eq_true.2 ⟨x, hx, by simpa using hcx⟩
      simp [this] at hnone
    have hidx :
        chooserSelIndex { m with selectedName := name } models = -1 := by
      rw [chooserSelIndex, hcond]
      exact selIndexGo_of_all_neg (fun lm => lm.Name == name) models 0 (-1) hall
    rw [hm1, ← hmid]
    exact update_fetchResp_notfound { m with selectedName := name } host models hidx

/-- C6 witness: a fresh chooser, pending name "a", fetch list containing
"a". -/
theorem c6_pending_name_moves_cursor_not_selection_witness :
    (c6Models.any (fun lm => lm.Name == "a") = true →
      ∃ k, ∃ hk : k < c6Models.length,
        (c6Models.get ⟨k, hk⟩).Name = "a" ∧
        (((NewModelChooser 7 "h").SetSelectionByName "a").1.update
            (.fetchResp (NewModelChooser 7 "h").id "h"
              c6Models)).1.modelListCursor = k ∧
        (((NewModelChooser 7 "h").SetSelectionByName "a").1.update
            (.fetchResp (NewModelChooser 7 "h").id "h"
              c6Models)).1.selectedName = "a" ∧
        (((NewModelChooser 7 "h").SetSelectionByName "a").1.update
            (.fetchResp (NewModelChooser 7 "h").id "h"
              c6Models)).1.selectedModel = none) ∧
    (c6Models.any (fun lm => lm.Name == "a") = false →
      (((NewModelChooser 7 "h").SetSelectionByName "a").1.update
          (.fetchResp (NewModelChooser 7 "h").id "h"
            c6Models)).1.selectedModel = none) :=
  c6_pending_name_moves_cursor_not_selection (NewModelChooser 7 "h") "a" "h"
    c6Models rfl rfl (by decide)

/-- C6 counterexample: with the pending name "a" set before any fetch, a
successful fetch whose list contains an entry named "a" does not mark that
entry selected — `selectedModel` (what `SelectedModel` returns) is still
nil afterwards, while the claim asserts the entry is selected. -/
theorem c6_counterexample :
    (c6Models.any fun lm => lm.Name == c6Before.selectedName) = true ∧
    c6After.selectedModel = none ∧
    ∀ lm ∈ c6Models, c6After.selectedModel ≠ some lm := by
  decide

/-- C1: the claim asserts that at every reachable state at most one
generation is active per session.  Refuted by an explicit reachable trace:
deliver a start and run its command; let the call finish (its final chunk
still queued); deliver a second start (the cancel branch hits the finished
call's context) and run its command (second call in flight); process the
stale final chunk — it clears `isGenerating` while the second call is in
flight; deliver a third start (the cancel branch is skipped since
`isGenerating` is false) and run its command, which passes the
`if m.isGenerating` guard: now two uncancelled calls are in flight for the
one session. -/
theorem c1_two_active_calls_reachable :
    ∃ st : SysState, SysReach (initSys (NewSession 1)) st ∧
      2 ≤ st.activeCalls.length := by
  refine ⟨c1St8, ?_, by decide⟩
  have h1 : SysStep c1St0 c1St1 := SysStep.deliverStart c1St0 1
  have h2 : SysStep c1St1 c1St2 :=
    SysStep.execIssue c1St1 (by decide) (by decide)
  have h3 : SysStep c1St2 c1St3 :=
    SysStep.finishOk c1St2 0 c1Done1 (by decide) (by decide)
  have h4 : SysStep c1St3 c1St4 := SysStep.deliverStart c1St3 1
  have h5 : SysStep c1St4 c1St5 :=
    SysStep.execIssue c1St4 (by decide) (by decide)
  have h6 : SysStep c1St5 c1St6 :=
    SysStep.deliverChunk c1St5 (respFuncMsg 1 c1Done1) [] (by decide)
  have h7 : SysStep c1St6 c1St7 := SysStep.deliverStart c1St6 1
  have h8 : SysStep c1St7 c1St8 :=
    SysStep.execIssue c1St7 (by decide) (by decide)
  exact Relation.ReflTransGen.head h1 (Relation.ReflTransGen.head h2
    (Relation.ReflTransGen.head h3 (Relation.ReflTransGen.head h4
      (Relation.ReflTransGen.head h5 (Relation.ReflTransGen.head h6
        (Relation.ReflTransGen.head h7 (Relation.ReflTransGen.single h8)))))))
